import Mathlib

/-!
Verification of the WealthWarden ledger & asset-state engine.

This file gives a shallow embedding of the ledger operations of
`src/main.py`, the SQLAlchemy data model of `src/db/models.py`, and the
aggregation engine of `src/services/analyzer.py`, and proves (or refutes)
the frozen specification claims against it.

Modelling conventions:
* Monetary values (Python floats in the source) are modelled as exact
  rationals (`Rat`); datetimes are modelled as an integer number of
  seconds, so that `timedelta(hours=24)` is the integer `86400`.
* The SQLAlchemy session is modelled as an explicit record `DB` holding
  the three tables as lists in insertion order; `db.commit()` is the
  identity (mutations are applied eagerly in both the source and here).
* SQL `ILIKE '%pattern%'` is case-insensitive substring containment,
  modelled by `ilike` below; SQLAlchemy's `.first()` is `List.find?`.
* Each Telegram handler in `src/main.py` is modelled by a pure function
  from the database (plus the parsed arguments of the handler) to the
  new database and an outcome value mirroring what the handler reports.
* The `raw_text` audit column is omitted: no ledger or analyzer
  operation ever reads it (it is only echoed into the CSV export).
-/

namespace WealthWarden

/-- The `type` column of `transactions` (db/models.py): INCOME or EXPENSE. -/
inductive TxType where
  | INCOME
  | EXPENSE
deriving DecidableEq

/-- The `type` column of `assets` (db/models.py): LIQUID, CREDIT, INVESTMENT, OTHER. -/
inductive AssetKind where
  | LIQUID
  | CREDIT
  | INVESTMENT
  | OTHER
deriving DecidableEq

/-- One row of the `transactions` table (class `Transaction`, db/models.py).
`date` defaults to creation time, `currency` to "CNY"; `description`,
`category`, `type` and `asset_id` are nullable columns. -/
structure Transaction where
  id : Nat
  date : Int
  amount : Rat
  currency : String := "CNY"
  description : Option String := none
  category : Option String := none
  type : Option TxType := none
  asset_id : Option Nat := none
deriving DecidableEq

/-- One row of the `assets` table (class `Asset`, db/models.py).
`type` defaults to LIQUID, `balance` to 0, `currency` to "CNY";
`updated_at` is maintained by the `onupdate` hook on every write. -/
structure Asset where
  id : Nat
  name : String
  category : String := "General"
  type : AssetKind := AssetKind.LIQUID
  balance : Rat := 0
  currency : String := "CNY"
  updated_at : Int := 0
deriving DecidableEq

/-- One row of the `budgets` table (class `Budget`, db/models.py).
`alert_threshold` defaults to 0.8. -/
structure Budget where
  id : Nat
  category : String
  limit_amount : Rat
  currency : String := "CNY"
  alert_threshold : Rat := 4/5
deriving DecidableEq

/-- The persistent store: the two mutated tables in insertion order, plus
the autoincrement counters for the next primary keys. -/
structure DB where
  transactions : List Transaction := []
  assets : List Asset := []
  nextTxId : Nat := 1
  nextAssetId : Nat := 1
deriving DecidableEq

/-- `startsWithChars needle hay`: `needle` is a leading segment of `hay`. -/
def startsWithChars : List Char → List Char → Bool
  | [], _ => true
  | _ :: _, [] => false
  | a :: as, b :: bs => a == b && startsWithChars as bs

/-- `containsChars needle hay`: `needle` occurs contiguously inside `hay`. -/
def containsChars (needle : List Char) : List Char → Bool
  | [] => startsWithChars needle []
  | hay@(_ :: rest) => startsWithChars needle hay || containsChars needle rest

/-- Characters of a string, case-folded. -/
def lowerChars (s : String) : List Char :=
  s.data.map Char.toLower

/-- SQL `column ILIKE '%pattern%'`: case-insensitive substring match. -/
def ilike (column pattern : String) : Bool :=
  containsChars (lowerChars pattern) (lowerChars column)

/-- `db.query(Asset).filter(Asset.name.ilike(f"%{name}%")).first()`:
fuzzy asset resolution, first match in table order. -/
def findAssetFuzzy (assets : List Asset) (name : String) : Option Asset :=
  assets.find? (fun a => ilike a.name name)

/-- `db.query(Asset).filter(Asset.name == name).first()`: exact-name
asset resolution (the authoritative-observation path). -/
def findAssetExact (assets : List Asset) (name : String) : Option Asset :=
  assets.find? (fun a => a.name == name)

/-- `db.get(Asset, id)`: primary-key lookup. -/
def getAsset (assets : List Asset) (aid : Nat) : Option Asset :=
  assets.find? (fun a => a.id == aid)

/-- Write back a (modified) row, keyed by primary key. -/
def setAsset (assets : List Asset) (a : Asset) : List Asset :=
  assets.map (fun x => if x.id == a.id then a else x)

/-- In-place `asset.balance = f(asset.balance)` on the row with key `aid`
(with the `onupdate` timestamp hook). Used where the source mutates an
ORM object that may alias another lookup of the same row. -/
def adjustBalance (assets : List Asset) (aid : Nat) (f : Rat → Rat) (now : Int) : List Asset :=
  assets.map (fun a => if a.id == aid then { a with balance := f a.balance, updated_at := now } else a)

/-- Balance of the row with primary key `aid`, when present. -/
def assetBalance (db : DB) (aid : Nat) : Option Rat :=
  (getAsset db.assets aid).map Asset.balance

/-- Sum of the `amount` column over a list of transactions. -/
def sumAmounts (txs : List Transaction) : Rat :=
  txs.foldl (fun s t => s + t.amount) 0

/-! ## Guided source-selection flow (`handle_callback`, `sel_src_` branch) -/

/-- The `log_data` session payload of the guided logging flow. -/
structure LogData where
  amount : Rat
  category : String
  desc : String
  type : TxType
deriving DecidableEq

inductive SelSrcOutcome where
  | recorded (newBalance : Rat)
  | asset_not_found
deriving DecidableEq

/-- `handle_callback`, branch `data.startswith("sel_src_")` (main.py:220-279):
apply the polarity rule to the selected asset and record the transaction. -/
def handle_callback_sel_src (db : DB) (now : Int) (asset_id : Nat) (d : LogData) :
    DB × SelSrcOutcome :=
  match getAsset db.assets asset_id with
  | none => (db, SelSrcOutcome.asset_not_found)
  | some asset =>
    let newBal : Rat :=
      match d.type with
      | TxType.EXPENSE =>
          if asset.type = AssetKind.CREDIT then asset.balance + d.amount
          else asset.balance - d.amount
      | TxType.INCOME =>
          if asset.type = AssetKind.CREDIT then asset.balance - d.amount
          else asset.balance + d.amount
    let tx : Transaction :=
      { id := db.nextTxId, date := now, amount := d.amount,
        category := some d.category, description := some d.desc,
        type := some d.type, asset_id := some asset.id }
    ({ db with
        assets := setAsset db.assets { asset with balance := newBal, updated_at := now },
        transactions := db.transactions ++ [tx],
        nextTxId := db.nextTxId + 1 },
     SelSrcOutcome.recorded newBal)

/-! ## Confirm-delete flow (`handle_callback`, `cfm_del_` branch) -/

inductive CfmDelOutcome where
  | deleted
  | not_found
deriving DecidableEq

/-- `handle_callback`, branch `data.startswith("cfm_del_")` (main.py:299-324):
revert the linked asset's balance with the inverse polarity rule, then
remove the transaction row. -/
def handle_callback_cfm_del (db : DB) (now : Int) (tx_id : Nat) : DB × CfmDelOutcome :=
  match db.transactions.find? (fun t => t.id == tx_id) with
  | none => (db, CfmDelOutcome.not_found)
  | some tx =>
    let assets' :=
      match tx.asset_id with
      | none => db.assets
      | some aid =>
        match getAsset db.assets aid with
        | none => db.assets
        | some asset =>
          match tx.type with
          | some TxType.EXPENSE =>
              setAsset db.assets { asset with
                balance := (if asset.type = AssetKind.CREDIT then asset.balance - tx.amount
                            else asset.balance + tx.amount),
                updated_at := now }
          | some TxType.INCOME =>
              setAsset db.assets { asset with
                balance := (if asset.type = AssetKind.CREDIT then asset.balance + tx.amount
                            else asset.balance - tx.amount),
                updated_at := now }
          | none => db.assets
    ({ db with
        assets := assets',
        transactions := db.transactions.filter (fun t => t.id != tx_id) },
     CfmDelOutcome.deleted)

/-! ## Manual `/add` command (`handle_add_command`) -/

structure AddOutcome where
  tx_type : TxType
  stored_amount : Rat
  linked_asset : Option Nat
deriving DecidableEq

/-- `handle_add_command` (main.py:329-379): `/add <amount> <cat> <desc> [asset]`.
The sign of the first argument selects the type; the stored amount is its
absolute value; a resolved asset is adjusted without any CREDIT dispatch. -/
def handle_add_command (db : DB) (now : Int) (amount : Rat) (category desc : String)
    (asset_name : Option String) : DB × AddOutcome :=
  let tx_type := if amount > 0 then TxType.INCOME else TxType.EXPENSE
  let abs_amount := |amount|
  let link :=
    match asset_name with
    | none => (none, db.assets)
    | some nm =>
      match findAssetFuzzy db.assets nm with
      | none => (none, db.assets)
      | some asset =>
        (some asset.id,
         setAsset db.assets { asset with
           balance := (if tx_type = TxType.EXPENSE then asset.balance - abs_amount
                       else asset.balance + abs_amount),
           updated_at := now })
  let tx : Transaction :=
    { id := db.nextTxId, date := now, amount := abs_amount,
      category := some category, description := some desc,
      type := some tx_type, asset_id := link.1 }
  ({ db with
      assets := link.2,
      transactions := db.transactions ++ [tx],
      nextTxId := db.nextTxId + 1 },
   { tx_type := tx_type, stored_amount := abs_amount, linked_asset := link.1 })

/-! ## `/setbalance` command (`handle_setbalance_command`) -/

/-- `handle_setbalance_command` (main.py:381-410): fuzzy-resolve the named
asset and overwrite its balance (and, with a third argument, its kind);
create the asset with category "General" and default kind LIQUID when the
name does not resolve. -/
def handle_setbalance_command (db : DB) (now : Int) (name : String) (amount : Rat)
    (kindArg : Option AssetKind) : DB :=
  match findAssetFuzzy db.assets name with
  | some asset =>
    { db with assets := setAsset db.assets { asset with
        balance := amount,
        type := (match kindArg with | some k => k | none => asset.type),
        updated_at := now } }
  | none =>
    { db with
        assets := db.assets ++
          [{ id := db.nextAssetId, name := name, balance := amount,
             category := "General", type := kindArg.getD AssetKind.LIQUID,
             currency := "CNY", updated_at := now }],
        nextAssetId := db.nextAssetId + 1 }

/-! ## `/transfer` command (`handle_transfer_command`) -/

inductive TransferOutcome where
  | ok
  | asset_not_found
deriving DecidableEq

/-- `handle_transfer_command` (main.py:412-468): fuzzy-resolve both sides;
apply the polarity-aware debit/credit and record the two TRANSFER rows. -/
def handle_transfer_command (db : DB) (now : Int) (from_name to_name : String)
    (amount : Rat) : DB × TransferOutcome :=
  match findAssetFuzzy db.assets from_name, findAssetFuzzy db.assets to_name with
  | some from_asset, some to_asset =>
    let assets1 := adjustBalance db.assets from_asset.id
      (fun b => if from_asset.type = AssetKind.CREDIT then b + amount else b - amount) now
    let assets2 := adjustBalance assets1 to_asset.id
      (fun b => if to_asset.type = AssetKind.CREDIT then b - amount else b + amount) now
    let tx_from : Transaction :=
      { id := db.nextTxId, date := now, amount := amount,
        category := some "TRANSFER", type := some TxType.EXPENSE,
        description := some ("Transfer to " ++ to_asset.name),
        asset_id := some from_asset.id }
    let tx_to : Transaction :=
      { id := db.nextTxId + 1, date := now, amount := amount,
        category := some "TRANSFER", type := some TxType.INCOME,
        description := some ("Transfer from " ++ from_asset.name),
        asset_id := some to_asset.id }
    ({ db with
        assets := assets2,
        transactions := db.transactions ++ [tx_from, tx_to],
        nextTxId := db.nextTxId + 2 },
     TransferOutcome.ok)
  | _, _ => (db, TransferOutcome.asset_not_found)

/-- `handle_message`, Case 2 "Transferring" (main.py:600-637): the
button-initiated reply flow. The source asset comes by primary key from
the session, the target by fuzzy name; both balances are adjusted with
the polarity rule but no transaction row is recorded. -/
def handle_message_reply_transfer (db : DB) (now : Int) (from_id : Nat)
    (target_name : String) (amount : Rat) : DB × TransferOutcome :=
  match getAsset db.assets from_id, findAssetFuzzy db.assets target_name with
  | some from_asset, some to_asset =>
    let assets1 := adjustBalance db.assets from_asset.id
      (fun b => if from_asset.type = AssetKind.CREDIT then b + amount else b - amount) now
    let assets2 := adjustBalance assets1 to_asset.id
      (fun b => if to_asset.type = AssetKind.CREDIT then b - amount else b + amount) now
    ({ db with assets := assets2 }, TransferOutcome.ok)
  | _, _ => (db, TransferOutcome.asset_not_found)

/-! ## Classified-intent flow (`is_duplicate_transaction`, `handle_dual_intent`,
`handle_asset_update`, and the DELETE branch of `handle_message`) -/

/-- The classifier's `transaction_data` payload (all keys optional). -/
structure TxData where
  amount : Option Rat := none
  currency : Option String := none
  category : Option String := none
  type : Option TxType := none
  description : Option String := none
  asset_name : Option String := none
deriving DecidableEq

/-- `is_duplicate_transaction` (main.py:882-897): an existing transaction
with identical amount, type and category whose timestamp lies within the
trailing 24-hour window from now. -/
def is_duplicate_transaction (db : DB) (now : Int) (data : TxData) : Bool :=
  let time_window := now - 86400
  db.transactions.any (fun t =>
    some t.amount == data.amount &&
    t.type == data.type &&
    t.category == data.category &&
    decide (time_window ≤ t.date))

inductive DualTxOutcome where
  | no_amount
  | skipped_duplicate
  | recorded (linked : Option Nat) (newBalance : Option Rat)
deriving DecidableEq

/-- The transaction half of `handle_dual_intent` (main.py:908-947):
duplicate check, then record; then, if an `asset_name` hint fuzzy-resolves,
link the row and update the balance — with no CREDIT dispatch. -/
def dualIntentTx (db : DB) (now : Int) (tx_data : TxData) : DB × DualTxOutcome :=
  match tx_data.amount with
  | none => (db, DualTxOutcome.no_amount)
  | some amt =>
    if amt = 0 then (db, DualTxOutcome.no_amount)
    else if is_duplicate_transaction db now tx_data then
      (db, DualTxOutcome.skipped_duplicate)
    else
      let tx0 : Transaction :=
        { id := db.nextTxId, date := now, amount := amt,
          currency := tx_data.currency.getD "CNY",
          category := tx_data.category,
          description := tx_data.description,
          type := tx_data.type, asset_id := none }
      match tx_data.asset_name with
      | none =>
        ({ db with transactions := db.transactions ++ [tx0], nextTxId := db.nextTxId + 1 },
         DualTxOutcome.recorded none none)
      | some nm =>
        match findAssetFuzzy db.assets nm with
        | none =>
          ({ db with transactions := db.transactions ++ [tx0], nextTxId := db.nextTxId + 1 },
           DualTxOutcome.recorded none none)
        | some asset =>
          let newBal : Rat :=
            if tx_data.type == some TxType.EXPENSE then asset.balance - amt
            else if tx_data.type == some TxType.INCOME then asset.balance + amt
            else asset.balance
          ({ db with
              transactions := db.transactions ++ [{ tx0 with asset_id := some asset.id }],
              assets := setAsset db.assets { asset with balance := newBal, updated_at := now },
              nextTxId := db.nextTxId + 1 },
           DualTxOutcome.recorded (some asset.id) (some newBal))

/-- One element of the classifier's `assets` payload: an authoritative
balance observation. -/
structure AssetObs where
  name : Option String := none
  balance : Option Rat := none
  category : Option String := none
  currency : Option String := none
deriving DecidableEq

/-- The per-call summary built by `handle_asset_update` (updated vs
unchanged observation names). -/
structure ObsSummary where
  updated : List String := []
  skipped : List String := []
deriving DecidableEq

/-- One iteration of the `handle_asset_update` loop (main.py:967-991):
exact-name resolution; a write is skipped when the reported balance is
within 0.01 of the current one; otherwise the balance is overwritten
(category/currency updated only when supplied and non-empty); an unknown
name creates the asset with category defaulting to "OTHERS" and currency
to "CNY". -/
def obsStep (now : Int) (acc : DB × ObsSummary) (item : AssetObs) : DB × ObsSummary :=
  let db := acc.1
  let s := acc.2
  match item.name, item.balance with
  | some name, some new_balance =>
    if name.isEmpty then (db, s)
    else
      match findAssetExact db.assets name with
      | some asset =>
        if |asset.balance - new_balance| < 1/100 then
          (db, { s with skipped := s.skipped ++ [name] })
        else
          let asset' := { asset with
            balance := new_balance,
            category := (match item.category with
                         | some c => if c.isEmpty then asset.category else c
                         | none => asset.category),
            currency := (match item.currency with
                         | some c => if c.isEmpty then asset.currency else c
                         | none => asset.currency),
            updated_at := now }
          ({ db with assets := setAsset db.assets asset' },
           { s with updated := s.updated ++ [name] })
      | none =>
        let a : Asset :=
          { id := db.nextAssetId, name := name, balance := new_balance,
            category := item.category.getD "OTHERS",
            currency := item.currency.getD "CNY",
            type := AssetKind.LIQUID, updated_at := now }
        ({ db with assets := db.assets ++ [a], nextAssetId := db.nextAssetId + 1 },
         { s with updated := s.updated ++ [name] })
  | _, _ => (db, s)

/-- `handle_asset_update` (main.py:962-1004): fold the observation batch. -/
def handle_asset_update (db : DB) (now : Int) (assets_data : List AssetObs) :
    DB × ObsSummary :=
  assets_data.foldl (obsStep now) (db, {})

/-- The combined result reported by `handle_dual_intent`. -/
structure DualOutcome where
  tx : Option DualTxOutcome := none
  obs : Option ObsSummary := none
  processed : Bool := false
deriving DecidableEq

/-- `handle_dual_intent` (main.py:899-960): process the transaction
payload, then the asset observations; `processed` mirrors the boolean
the handler returns. -/
def handle_dual_intent (db : DB) (now : Int) (tx_data : Option TxData)
    (assets_data : Option (List AssetObs)) : DB × DualOutcome :=
  let step1 :=
    match tx_data with
    | none => (db, (none : Option DualTxOutcome))
    | some d =>
      let r := dualIntentTx db now d
      (r.1, if r.2 = DualTxOutcome.no_amount then none else some r.2)
  let step2 :=
    match assets_data with
    | none => (step1.1, (none : Option ObsSummary))
    | some lst =>
      if lst.isEmpty then (step1.1, none)
      else
        let r := handle_asset_update step1.1 now lst
        (r.1, some r.2)
  (step2.1, { tx := step1.2, obs := step2.2,
              processed := step1.2.isSome || step2.2.isSome })

/-- The classifier's delete payload: `target` with optional search term. -/
inductive DeleteTarget where
  | LAST
  | SEARCH (term : Option String)
deriving DecidableEq

inductive DeleteOutcome where
  | deleted (tx : Transaction)
  | empty_history
  | not_found
  | ambiguous (shown : List Transaction)
  | unclear
deriving DecidableEq

/-- `db.query(Transaction).order_by(Transaction.id.desc()).first()`. -/
def lastByIdDesc (txs : List Transaction) : Option Transaction :=
  match txs with
  | [] => none
  | t :: ts => some (ts.foldl (fun acc x => if acc.id < x.id then x else acc) t)

/-- The DELETE branch of `handle_message` (main.py:744-785): LAST deletes
the transaction with the greatest id; SEARCH fuzzy-matches descriptions
(most recent first), deleting only a unique match and listing up to three
candidates otherwise. The deletion removes the row WITHOUT reverting any
linked asset balance. -/
def handle_message_delete (db : DB) (target : Option DeleteTarget) : DB × DeleteOutcome :=
  match target with
  | some DeleteTarget.LAST =>
    match lastByIdDesc db.transactions with
    | none => (db, DeleteOutcome.empty_history)
    | some tx =>
      ({ db with transactions := db.transactions.filter (fun t => t.id != tx.id) },
       DeleteOutcome.deleted tx)
  | some (DeleteTarget.SEARCH none) => (db, DeleteOutcome.unclear)
  | some (DeleteTarget.SEARCH (some term)) =>
    if term.isEmpty then (db, DeleteOutcome.unclear)
    else
      let candidates :=
        (db.transactions.filter (fun t =>
          match t.description with
          | some d => ilike d term
          | none => false)).mergeSort (fun a b => decide (b.id ≤ a.id))
      match candidates with
      | [] => (db, DeleteOutcome.not_found)
      | [tx] =>
        ({ db with transactions := db.transactions.filter (fun t => t.id != tx.id) },
         DeleteOutcome.deleted tx)
      | _ => (db, DeleteOutcome.ambiguous (candidates.take 3))
  | none => (db, DeleteOutcome.unclear)

/-! ## Aggregation engine (`services/analyzer.py`, class `FinanceAnalyzer`) -/

/-- `tx.category or "Uncategorized"`: Python truthiness folds both a NULL
and an empty category into the "Uncategorized" bucket. -/
def catName (c : Option String) : String :=
  match c with
  | some s => if s.isEmpty then "Uncategorized" else s
  | none => "Uncategorized"

/-- `by_category[cat] = by_category.get(cat, 0.0) + amt` on an
insertion-ordered dict, modelled as an association list. -/
def addToCat (m : List (String × Rat)) (cat : String) (amt : Rat) : List (String × Rat) :=
  if m.any (fun p => p.1 == cat) then
    m.map (fun p => if p.1 == cat then (p.1, p.2 + amt) else p)
  else m ++ [(cat, amt)]

/-- Dict lookup with default 0.0. -/
def lookupCat (m : List (String × Rat)) (cat : String) : Rat :=
  match m.find? (fun p => p.1 == cat) with
  | some p => p.2
  | none => 0

/-- The result record of `_aggr_transactions` / `get_monthly_summary`. -/
structure MonthlySummary where
  total_income : Rat
  total_expense : Rat
  net_savings : Rat
  savings_rate : Rat
  daily_average : Rat
  categories : List (String × Rat)
deriving DecidableEq

/-- The loop body of `_aggr_transactions` (analyzer.py:45-52), acting on
the accumulator (total_income, total_expense, by_category). -/
def aggrStep (acc : Rat × Rat × List (String × Rat)) (tx : Transaction) :
    Rat × Rat × List (String × Rat) :=
  match tx.type with
  | some TxType.INCOME => (acc.1 + tx.amount, acc.2.1, acc.2.2)
  | some TxType.EXPENSE =>
      (acc.1, acc.2.1 + tx.amount, addToCat acc.2.2 (catName tx.category) tx.amount)
  | none => acc

/-- `_aggr_transactions` (analyzer.py:40-67), with `day = now.day`. -/
def aggr_transactions (txs : List Transaction) (day : Nat) : MonthlySummary :=
  let acc := txs.foldl aggrStep (0, 0, [])
  let total_income := acc.1
  let total_expense := acc.2.1
  let daily_avg : Rat := if day > 0 then total_expense / (day : Rat) else 0
  let net_savings := total_income - total_expense
  let savings_rate : Rat := if total_income > 0 then net_savings / total_income * 100 else 0
  { total_income := total_income, total_expense := total_expense,
    net_savings := net_savings, savings_rate := savings_rate,
    daily_average := daily_avg, categories := acc.2.2 }

/-- The trend field of the weekly report: either unavailable (prior window
zero) or a signed percent change with its up/down direction. -/
inductive Trend where
  | unavailable
  | change (percent : Rat) (isUp : Bool)
deriving DecidableEq

structure WeeklyTrend where
  this_week : Rat
  last_week : Rat
  trend : Trend
deriving DecidableEq

/-- `get_weekly_trend` (analyzer.py:116-149): EXPENSE sums over
[now-7d, ∞) and [now-14d, now-7d); `trend` is "N/A (No previous data)"
when the prior sum is zero, otherwise `(diff / txs_prev) * 100` rendered
with direction `'up' if diff > 0 else 'down'`. -/
def get_weekly_trend (db : DB) (now : Int) : WeeklyTrend :=
  let last7 := now - 7 * 86400
  let prev7 := last7 - 7 * 86400
  let txs_current := sumAmounts (db.transactions.filter (fun t =>
    t.type == some TxType.EXPENSE && decide (last7 ≤ t.date)))
  let txs_prev := sumAmounts (db.transactions.filter (fun t =>
    t.type == some TxType.EXPENSE && decide (prev7 ≤ t.date) && decide (t.date < last7)))
  if txs_prev = 0 then
    { this_week := txs_current, last_week := txs_prev, trend := Trend.unavailable }
  else
    let diff := txs_current - txs_prev
    { this_week := txs_current, last_week := txs_prev,
      trend := Trend.change (diff / txs_prev * 100) (decide (diff > 0)) }

/-- Python `int()`: truncation toward zero on an exact rational. -/
def ratTrunc (q : Rat) : Int :=
  if q < 0 then -((-q).floor) else q.floor

/-- `_generate_progress_bar` (analyzer.py:109-114) with its default
length 10: `"[:(]"` on a zero denominator, else a 10-cell bar whose
filled count is `min(int(current/total*10), 10)`. -/
def generate_progress_bar (current total : Rat) (length : Nat) : String :=
  if total = 0 then "[:(]"
  else
    let filled := min (ratTrunc (current / total * (length : Rat))) (length : Int)
    let emptyCells := (length : Int) - filled
    "[" ++ String.mk (List.replicate filled.toNat '█')
        ++ String.mk (List.replicate emptyCells.toNat '░') ++ "]"

/-- `usage_by_cat.get(b.category, 0.0)` (analyzer.py:84-95): this-month
EXPENSE total of the transactions whose (truthy) category equals `cat`
exactly. -/
def usageByCat (txs : List Transaction) (cat : String) : Rat :=
  sumAmounts (txs.filter (fun t =>
    t.type == some TxType.EXPENSE &&
    (match t.category with
     | some c => !c.isEmpty && c == cat
     | none => false)))

/-- One budget's line in `get_budget_status` (analyzer.py:94-105). -/
structure BudgetLine where
  spent : Rat
  percent : Rat
  bar : String
  alert : Bool
deriving DecidableEq

/-- The per-budget computation of `get_budget_status`:
`percent = spent/limit*100` if the limit is positive, 100 otherwise; the
progress bar; and the alert flag `percent >= alert_threshold * 100`. -/
def budgetLine (txs : List Transaction) (b : Budget) : BudgetLine :=
  let spent := usageByCat txs b.category
  let percent : Rat := if b.limit_amount > 0 then spent / b.limit_amount * 100 else 100
  { spent := spent, percent := percent,
    bar := generate_progress_bar spent b.limit_amount 10,
    alert := decide (percent ≥ b.alert_threshold * 100) }

/-- `get_budget_status` (analyzer.py:69-107): one line per budget row. -/
def get_budget_status (db : DB) (budgets : List Budget) : List BudgetLine :=
  budgets.map (budgetLine db.transactions)

/-! ## Helper predicates and lemmas -/

/-- `tx.type == 'INCOME'`. -/
def isIncomeTx (t : Transaction) : Bool := t.type == some TxType.INCOME

/-- `tx.type == 'EXPENSE'`. -/
def isExpenseTx (t : Transaction) : Bool := t.type == some TxType.EXPENSE

theorem startsWithChars_self (l : List Char) : startsWithChars l l = true := by
  induction l with
  | nil => rfl
  | cons a as ih => simp [startsWithChars, ih]

theorem containsChars_self (l : List Char) : containsChars l l = true := by
  cases l with
  | nil => rfl
  | cons a as => simp [containsChars, startsWithChars_self]

theorem ilike_self (s : String) : ilike s s = true := by
  unfold ilike
  exact containsChars_self (lowerChars s)

theorem setAsset_mem (assets : List Asset) (a0 a' : Asset) (h : a0 ∈ assets)
    (hid : a'.id = a0.id) : a' ∈ setAsset assets a' := by
  unfold setAsset
  refine List.mem_map.mpr ⟨a0, h, ?_⟩
  rw [hid]
  simp

theorem getAsset_setAsset (assets : List Asset) (a' : Asset)
    (h : ∃ x ∈ assets, (x.id == a'.id) = true) :
    getAsset (setAsset assets a') a'.id = some a' := by
  induction assets with
  | nil => rcases h with ⟨x, hx, _⟩; cases hx
  | cons x xs ih =>
    unfold getAsset setAsset
    simp only [List.map_cons]
    by_cases hid : (x.id == a'.id) = true
    · rw [List.find?_cons, if_pos hid]
      simp
    · rw [List.find?_cons, if_neg hid]
      have hx : (x.id == a'.id) = false := Bool.eq_false_iff.mpr hid
      rw [hx]
      rcases h with ⟨y, hy, hyid⟩
      rcases List.mem_cons.mp hy with rfl | hmem
      · rw [hyid] at hx
        exact absurd hx (by simp)
      · exact ih ⟨y, hmem, hyid⟩

theorem dualIntentTx_fresh (db : DB) (now : Int) (d : TxData) (a : Rat)
    (ha : d.amount = some a) (h0 : a ≠ 0)
    (hfresh : is_duplicate_transaction db now d = false) :
    ∃ tx : Transaction,
      (dualIntentTx db now d).1.transactions = db.transactions ++ [tx] ∧
      tx.amount = a ∧ tx.type = d.type ∧ tx.category = d.category ∧ tx.date = now := by
  rcases hn : d.asset_name with _ | nm
  · refine ⟨{ id := db.nextTxId, date := now, amount := a,
              currency := d.currency.getD "CNY", category := d.category,
              description := d.description, type := d.type, asset_id := none },
      ?_, rfl, rfl, rfl, rfl⟩
    simp [dualIntentTx, ha, h0, hfresh, hn]
  · rcases hf : findAssetFuzzy db.assets nm with _ | asset
    · refine ⟨{ id := db.nextTxId, date := now, amount := a,
                currency := d.currency.getD "CNY", category := d.category,
                description := d.description, type := d.type, asset_id := none },
        ?_, rfl, rfl, rfl, rfl⟩
      simp [dualIntentTx, ha, h0, hfresh, hn, hf]
    · refine ⟨{ id := db.nextTxId, date := now, amount := a,
                currency := d.currency.getD "CNY", category := d.category,
                description := d.description, type := d.type, asset_id := some asset.id },
        ?_, rfl, rfl, rfl, rfl⟩
      simp [dualIntentTx, ha, h0, hfresh, hn, hf]

theorem foldl_add_amount (ts : List Transaction) (x : Rat) :
    ts.foldl (fun s t => s + t.amount) x = x + sumAmounts ts := by
  induction ts generalizing x with
  | nil => simp [sumAmounts]
  | cons t ts ih =>
    simp only [List.foldl_cons, sumAmounts]
    rw [ih, ih (0 + t.amount)]
    ring

theorem sumAmounts_cons (t : Transaction) (ts : List Transaction) :
    sumAmounts (t :: ts) = t.amount + sumAmounts ts := by
  show List.foldl _ (0 + t.amount) ts = _
  rw [foldl_add_amount]
  ring

theorem lookupCat_cons_pos (x : String × Rat) (m : List (String × Rat)) (c : String)
    (h : (x.1 == c) = true) : lookupCat (x :: m) c = x.2 := by
  unfold lookupCat
  rw [List.find?_cons, h]

theorem lookupCat_cons_neg (x : String × Rat) (m : List (String × Rat)) (c : String)
    (h : (x.1 == c) = false) : lookupCat (x :: m) c = lookupCat m c := by
  unfold lookupCat
  rw [List.find?_cons, h]

theorem lookupCat_map_add (m : List (String × Rat)) (k : String) (a : Rat) (c : String) :
    lookupCat (m.map (fun p => if p.1 == k then (p.1, p.2 + a) else p)) c =
      lookupCat m c +
        (if k = c ∧ (m.any (fun p => p.1 == c)) = true then a else 0) := by
  induction m with
  | nil => simp [lookupCat]
  | cons p m ih =>
    have hfst : (if (p.1 == k) = true then (p.1, p.2 + a) else p).1 = p.1 := by
      by_cases h : (p.1 == k) = true <;> simp [h]
    by_cases hpc : (p.1 == c) = true
    · rw [List.map_cons, lookupCat_cons_pos _ _ _ (by rw [hfst]; exact hpc),
        lookupCat_cons_pos _ _ _ hpc]
      have hc : p.1 = c := by simpa using hpc
      by_cases hpk : (p.1 == k) = true
      · have hkc : k = c := by
          have hk : p.1 = k := by simpa using hpk
          rw [← hk, hc]
        simp [hpk, hkc, List.any_cons, hpc]
      · have hkc : ¬ k = c := by
          intro h
          exact hpk (by simp [← hc, h])
        simp [hpk, hkc]
    · have hpc' : (p.1 == c) = false := Bool.eq_false_iff.mpr hpc
      rw [List.map_cons, lookupCat_cons_neg _ _ _ (by rw [hfst]; exact hpc'),
        lookupCat_cons_neg _ _ _ hpc', ih]
      simp only [List.any_cons, hpc', Bool.false_or]

theorem lookupCat_append_single (m : List (String × Rat)) (k : String) (a : Rat) (c : String)
    (hany : m.any (fun p => p.1 == k) = false) :
    lookupCat (m ++ [(k, a)]) c = lookupCat m c + (if k = c then a else 0) := by
  induction m with
  | nil =>
    by_cases hkc : k = c
    · subst hkc
      rw [List.nil_append, lookupCat_cons_pos _ _ _ (by simp)]
      simp [lookupCat]
    · rw [List.nil_append, lookupCat_cons_neg _ _ _ (by simp [hkc])]
      simp [lookupCat, hkc]
  | cons p m ih =>
    simp only [List.any_cons, Bool.or_eq_false_iff] at hany
    by_cases hpc : (p.1 == c) = true
    · have hkc : ¬ k = c := by
        intro h
        subst h
        rw [hany.1] at hpc
        exact Bool.false_ne_true hpc
      rw [List.cons_append, lookupCat_cons_pos _ _ _ hpc, lookupCat_cons_pos _ _ _ hpc,
        if_neg hkc]
      ring
    · have hpc' : (p.1 == c) = false := Bool.eq_false_iff.mpr hpc
      rw [List.cons_append, lookupCat_cons_neg _ _ _ hpc', lookupCat_cons_neg _ _ _ hpc']
      exact ih hany.2

theorem lookupCat_addToCat (m : List (String × Rat)) (k : String) (a : Rat) (c : String) :
    lookupCat (addToCat m k a) c = lookupCat m c + (if k = c then a else 0) := by
  unfold addToCat
  by_cases hany : m.any (fun p => p.1 == k) = true
  · rw [if_pos hany, lookupCat_map_add]
    by_cases hkc : k = c
    · subst hkc
      simp [hany]
    · simp [hkc]
  · rw [if_neg hany, lookupCat_append_single]
    exact Bool.eq_false_iff.mpr hany

theorem aggr_fold_income (txs : List Transaction) (acc : Rat × Rat × List (String × Rat)) :
    (txs.foldl aggrStep acc).1 = acc.1 + sumAmounts (txs.filter isIncomeTx) := by
  induction txs generalizing acc with
  | nil => simp [sumAmounts]
  | cons t ts ih =>
    rw [List.foldl_cons, ih]
    rcases ht : t.type with _ | ty
    · simp [aggrStep, ht, isIncomeTx, List.filter_cons]
    · cases ty
      · simp only [aggrStep, ht, isIncomeTx, List.filter_cons, beq_self_eq_true, if_true,
          sumAmounts_cons]
        ring
      · simp [aggrStep, ht, isIncomeTx, List.filter_cons]

theorem aggr_fold_expense (txs : List Transaction) (acc : Rat × Rat × List (String × Rat)) :
    (txs.foldl aggrStep acc).2.1 = acc.2.1 + sumAmounts (txs.filter isExpenseTx) := by
  induction txs generalizing acc with
  | nil => simp [sumAmounts]
  | cons t ts ih =>
    rw [List.foldl_cons, ih]
    rcases ht : t.type with _ | ty
    · simp [aggrStep, ht, isExpenseTx, List.filter_cons]
    · cases ty
      · simp [aggrStep, ht, isExpenseTx, List.filter_cons]
      · simp only [aggrStep, ht, isExpenseTx, List.filter_cons, beq_self_eq_true, if_true,
          sumAmounts_cons]
        ring

theorem aggr_fold_cats (txs : List Transaction) (acc : Rat × Rat × List (String × Rat))
    (c : String) :
    lookupCat (txs.foldl aggrStep acc).2.2 c =
      lookupCat acc.2.2 c +
        sumAmounts (txs.filter (fun t => isExpenseTx t && (catName t.category == c))) := by
  induction txs generalizing acc with
  | nil => simp [sumAmounts]
  | cons t ts ih =>
    rw [List.foldl_cons, ih]
    rcases ht : t.type with _ | ty
    · simp [aggrStep, ht, isExpenseTx, List.filter_cons]
    · cases ty
      · simp [aggrStep, ht, isExpenseTx, List.filter_cons]
      · by_cases hc : catName t.category = c
        · have hc' : (catName t.category == c) = true := by simp [hc]
          simp only [aggrStep, ht, isExpenseTx, List.filter_cons, hc', Bool.and_self,
            if_true, lookupCat_addToCat, hc, sumAmounts_cons, beq_self_eq_true]
          ring
        · have hc' : (catName t.category == c) = false := by simp [hc]
          simp [aggrStep, ht, isExpenseTx, List.filter_cons, hc', lookupCat_addToCat, hc]

/-! ## Claim theorems -/

/-- Claim C1: the spec asserts that deleting an asset-linked transaction
reverses its balance effect on every deletion entry point. The classified
DELETE-intent path of `handle_message` does not: starting from a LIQUID
asset "Cash" with balance 100, recording an EXPENSE of 50 linked to it
(balance 50) and then deleting LAST via the classified path removes the
row but leaves the balance at 50, not the pre-call 100. -/
theorem C1_delete_intent_no_reversal :
    let db0 : DB := { assets := [{ id := 1, name := "Cash", category := "Wallet",
                                   type := AssetKind.LIQUID, balance := 100 }],
                      nextAssetId := 2 }
    let d : TxData := { amount := some 50, type := some TxType.EXPENSE,
                        category := some "Food", asset_name := some "Cash" }
    let db1 := (dualIntentTx db0 0 d).1
    let final := (handle_message_delete db1 (some DeleteTarget.LAST)).1
    assetBalance db0 1 = some 100 ∧
    final.transactions = [] ∧
    assetBalance final 1 = some 50 ∧ (50 : Rat) ≠ 100 := by
  refine ⟨by decide, ?_, ?_, by norm_num⟩
  · norm_num [dualIntentTx, is_duplicate_transaction, findAssetFuzzy, ilike, lowerChars,
      containsChars, startsWithChars, setAsset, handle_message_delete, lastByIdDesc]
  · norm_num [dualIntentTx, is_duplicate_transaction, findAssetFuzzy, ilike, lowerChars,
      containsChars, startsWithChars, setAsset, handle_message_delete, lastByIdDesc,
      assetBalance, getAsset]

/-- Claim C2: the spec's polarity rule (EXPENSE on a CREDIT asset
increases the balance) holds on the guided source-selection flow but not
on the classified transaction-data flow: `handle_dual_intent` adjusts the
balance with no CREDIT dispatch. On a CREDIT asset "Visa" with balance
500, a classified EXPENSE of 100 yields balance 400 where the rule (and
the guided flow on the same input) yields 600. -/
theorem C2_classified_credit_polarity :
    (assetBalance (dualIntentTx
        { assets := [{ id := 1, name := "Visa", category := "Credit",
                       type := AssetKind.CREDIT, balance := 500 }], nextAssetId := 2 } 0
        { amount := some 100, type := some TxType.EXPENSE,
          category := some "Food", asset_name := some "Visa" }).1 1 = some 400) ∧
    ((handle_callback_sel_src
        { assets := [{ id := 1, name := "Visa", category := "Credit",
                       type := AssetKind.CREDIT, balance := 500 }], nextAssetId := 2 } 0 1
        { amount := 100, category := "Food", desc := "Dinner",
          type := TxType.EXPENSE }).2 = SelSrcOutcome.recorded 600) ∧
    (400 : Rat) ≠ 600 := by
  refine ⟨?_, ?_, by norm_num⟩
  · norm_num [dualIntentTx, is_duplicate_transaction, findAssetFuzzy, ilike, lowerChars,
      containsChars, startsWithChars, setAsset, assetBalance, getAsset]
  · norm_num [handle_callback_sel_src, getAsset]

/-- Claim C3: the spec asserts that every transfer entry point records
exactly two TRANSFER transactions. The button-initiated reply flow of
`handle_message` adjusts both balances (Alipay 1000 to 800, CREDIT Visa
500 to 300) yet records no transaction row at all. -/
theorem C3_reply_transfer_records_nothing :
    (handle_message_reply_transfer
      { assets := [{ id := 1, name := "Alipay", category := "Wallet",
                     type := AssetKind.LIQUID, balance := 1000 },
                   { id := 2, name := "Visa", category := "Credit",
                     type := AssetKind.CREDIT, balance := 500 }],
        nextAssetId := 3 } 0 1 "Visa" 200).2 = TransferOutcome.ok ∧
    (handle_message_reply_transfer
      { assets := [{ id := 1, name := "Alipay", category := "Wallet",
                     type := AssetKind.LIQUID, balance := 1000 },
                   { id := 2, name := "Visa", category := "Credit",
                     type := AssetKind.CREDIT, balance := 500 }],
        nextAssetId := 3 } 0 1 "Visa" 200).1.transactions = [] ∧
    assetBalance (handle_message_reply_transfer
      { assets := [{ id := 1, name := "Alipay", category := "Wallet",
                     type := AssetKind.LIQUID, balance := 1000 },
                   { id := 2, name := "Visa", category := "Credit",
                     type := AssetKind.CREDIT, balance := 500 }],
        nextAssetId := 3 } 0 1 "Visa" 200).1 1 = some 800 ∧
    assetBalance (handle_message_reply_transfer
      { assets := [{ id := 1, name := "Alipay", category := "Wallet",
                     type := AssetKind.LIQUID, balance := 1000 },
                   { id := 2, name := "Visa", category := "Credit",
                     type := AssetKind.CREDIT, balance := 500 }],
        nextAssetId := 3 } 0 1 "Visa" 200).1 2 = some 300 := by
  have hfrom : getAsset
      [{ id := 1, name := "Alipay", category := "Wallet",
         type := AssetKind.LIQUID, balance := 1000 },
       { id := 2, name := "Visa", category := "Credit",
         type := AssetKind.CREDIT, balance := 500 }] 1 =
      some { id := 1, name := "Alipay", category := "Wallet",
             type := AssetKind.LIQUID, balance := 1000 } := by decide
  have hto : findAssetFuzzy
      [{ id := 1, name := "Alipay", category := "Wallet",
         type := AssetKind.LIQUID, balance := 1000 },
       { id := 2, name := "Visa", category := "Credit",
         type := AssetKind.CREDIT, balance := 500 }] "Visa" =
      some { id := 2, name := "Visa", category := "Credit",
             type := AssetKind.CREDIT, balance := 500 } := by decide
  refine ⟨?_, ?_, ?_, ?_⟩ <;>
    · simp [handle_message_reply_transfer, hfrom, hto, adjustBalance, assetBalance, getAsset]
      try norm_num

/-- Claim C4: duplicate suppression. If the transaction data is fresh
(no stored duplicate in the trailing 24-hour window) and carries a
positive amount, the first `handle_dual_intent` submission stores exactly
one new row, and an identical resubmission within 24 hours is skipped
with no mutation at all. -/
theorem C4_duplicate_suppression (db : DB) (now later : Int) (d : TxData) (a : Rat)
    (ha : d.amount = some a) (hpos : 0 < a)
    (hfresh : is_duplicate_transaction db now d = false)
    (hwin : later - 86400 ≤ now) :
    (dualIntentTx db now d).1.transactions.length = db.transactions.length + 1 ∧
    dualIntentTx (dualIntentTx db now d).1 later d =
      ((dualIntentTx db now d).1, DualTxOutcome.skipped_duplicate) := by
  obtain ⟨tx, htxs, hamt, hty, hcat, hdate⟩ :=
    dualIntentTx_fresh db now d a ha hpos.ne' hfresh
  have hdup : is_duplicate_transaction (dualIntentTx db now d).1 later d = true := by
    unfold is_duplicate_transaction
    rw [List.any_eq_true]
    refine ⟨tx, ?_, ?_⟩
    · rw [htxs]; exact List.mem_append_right _ (List.mem_singleton_self _)
    · simp [hamt, hty, hcat, hdate, ha]
      omega
  constructor
  · rw [htxs]; simp
  · generalize hG : (dualIntentTx db now d).1 = db1 at hdup ⊢
    simp [dualIntentTx, ha, hpos.ne', hdup]

/-- Claim C4 witness: submitting EXPENSE 50 "Food" on an empty store
records one row; resubmitting the identical data one hour later is
skipped with no mutation. -/
theorem C4_duplicate_suppression_witness :
    (dualIntentTx ({ } : DB) 0
        { amount := some 50, type := some TxType.EXPENSE,
          category := some "Food" }).1.transactions.length
      = ({ } : DB).transactions.length + 1 ∧
    dualIntentTx
        (dualIntentTx ({ } : DB) 0
          { amount := some 50, type := some TxType.EXPENSE,
            category := some "Food" }).1 3600
        { amount := some 50, type := some TxType.EXPENSE, category := some "Food" } =
      ((dualIntentTx ({ } : DB) 0
          { amount := some 50, type := some TxType.EXPENSE,
            category := some "Food" }).1,
       DualTxOutcome.skipped_duplicate) :=
  C4_duplicate_suppression ({ } : DB) 0 3600
    { amount := some 50, type := some TxType.EXPENSE, category := some "Food" } 50
    rfl (by decide) (by decide) (by decide)

/-- Claim C5: asset observations resolve the asset by exact name match (a
resolved asset's name equals the observed name); a reported balance
within 0.01 of the current one writes nothing (db untouched, the name is
classified unchanged); a difference of at least 0.01 overwrites the
balance to exactly the reported value; and an unknown name creates the
asset with the observed balance, category defaulting to "OTHERS" and
currency to "CNY". -/
theorem C5_asset_observation (db : DB) (now : Int) (s : ObsSummary) (item : AssetObs)
    (name : String) (bal : Rat)
    (hn : item.name = some name) (hb : item.balance = some bal)
    (hne : name.isEmpty = false) :
    (∀ asset, findAssetExact db.assets name = some asset → asset.name = name) ∧
    (∀ asset, findAssetExact db.assets name = some asset →
       |asset.balance - bal| < 1/100 →
       obsStep now (db, s) item = (db, { s with skipped := s.skipped ++ [name] })) ∧
    (∀ asset, findAssetExact db.assets name = some asset →
       ¬ |asset.balance - bal| < 1/100 →
       (obsStep now (db, s) item).1.assets = setAsset db.assets
         { asset with
           balance := bal,
           category := (match item.category with
                        | some c => if c.isEmpty then asset.category else c
                        | none => asset.category),
           currency := (match item.currency with
                        | some c => if c.isEmpty then asset.currency else c
                        | none => asset.currency),
           updated_at := now }) ∧
    (findAssetExact db.assets name = none →
       (obsStep now (db, s) item).1.assets = db.assets ++
         [{ id := db.nextAssetId, name := name, balance := bal,
            category := item.category.getD "OTHERS",
            currency := item.currency.getD "CNY",
            type := AssetKind.LIQUID, updated_at := now }]) := by
  refine ⟨?_, ?_, ?_, ?_⟩
  · intro asset hfind
    have := List.find?_some hfind
    simpa using this
  · intro asset hfind hclose
    have hclose' : |asset.balance - bal| < (100 : Rat)⁻¹ := by rwa [one_div] at hclose
    simp [obsStep, hn, hb, hne, hfind, hclose']
  · intro asset hfind hfar
    have hfar' : ¬ |asset.balance - bal| < (100 : Rat)⁻¹ := by rwa [one_div] at hfar
    simp [obsStep, hn, hb, hne, hfind, hfar']
  · intro hfind
    simp [obsStep, hn, hb, hne, hfind]

/-- Claim C5 witness: re-reporting the exact current balance 500 of
"Alipay" writes nothing and classifies the observation as unchanged. -/
theorem C5_asset_observation_witness :
    obsStep 99
      ({ assets := [{ id := 1, name := "Alipay", category := "SAVINGS",
                      type := AssetKind.LIQUID, balance := 500 }], nextAssetId := 2 }, { })
      { name := some "Alipay", balance := some 500 } =
    ({ assets := [{ id := 1, name := "Alipay", category := "SAVINGS",
                    type := AssetKind.LIQUID, balance := 500 }], nextAssetId := 2 },
     { updated := [], skipped := ["Alipay"] }) :=
  (C5_asset_observation
      { assets := [{ id := 1, name := "Alipay", category := "SAVINGS",
                     type := AssetKind.LIQUID, balance := 500 }], nextAssetId := 2 }
      99 { } { name := some "Alipay", balance := some 500 } "Alipay" 500
      rfl rfl (by decide)).2.1
    { id := 1, name := "Alipay", category := "SAVINGS", type := AssetKind.LIQUID,
      balance := 500, currency := "CNY", updated_at := 0 }
    (by decide) (by norm_num)

/-- Claim C6 counterexample: a `/transfer` naming an unknown asset "Opal"
does not create it — the command fails with asset-not-found, the store is
unchanged, and no asset matching "Opal" exists before or after. -/
theorem C6_transfer_no_creation_counterexample :
    handle_transfer_command
      { assets := [{ id := 1, name := "Cash", category := "Wallet",
                     type := AssetKind.LIQUID, balance := 100 }], nextAssetId := 2 } 0
      "Cash" "Opal" 10 =
    ({ assets := [{ id := 1, name := "Cash", category := "Wallet",
                    type := AssetKind.LIQUID, balance := 100 }], nextAssetId := 2 },
     TransferOutcome.asset_not_found) ∧
    findAssetFuzzy
      [{ id := 1, name := "Cash", category := "Wallet",
         type := AssetKind.LIQUID, balance := 100 }] "Opal" = none := by
  constructor
  · decide
  · decide

/-- Claim C6 as amended: an asset is created lazily only by the explicit
balance-set path — after `/setbalance` naming N the store holds an asset
matching N — while a transfer whose side does not resolve fails with
asset-not-found and performs no mutation, and a recorded transaction
whose asset-name hint does not resolve leaves the asset table
unchanged. -/
theorem C6_lazy_creation_amended :
    (∀ (db : DB) (now : Int) (name : String) (amt : Rat) (kindArg : Option AssetKind),
      ∃ a ∈ (handle_setbalance_command db now name amt kindArg).assets,
        ilike a.name name = true) ∧
    (∀ (db : DB) (now : Int) (from_name to_name : String) (amt : Rat),
      (findAssetFuzzy db.assets from_name = none ∨
       findAssetFuzzy db.assets to_name = none) →
      handle_transfer_command db now from_name to_name amt =
        (db, TransferOutcome.asset_not_found)) ∧
    (∀ (db : DB) (now : Int) (d : TxData) (nm : String),
      d.asset_name = some nm → findAssetFuzzy db.assets nm = none →
      (dualIntentTx db now d).1.assets = db.assets) := by
  refine ⟨?_, ?_, ?_⟩
  · intro db now name amt kindArg
    unfold handle_setbalance_command
    rcases hf : findAssetFuzzy db.assets name with _ | asset
    · refine ⟨_, List.mem_append_right _ (List.mem_singleton_self _), ?_⟩
      exact ilike_self name
    · have hmem := List.mem_of_find?_eq_some hf
      have hp := List.find?_some hf
      exact ⟨_, setAsset_mem db.assets asset _ hmem rfl, hp⟩
  · intro db now fn tn amt h
    unfold handle_transfer_command
    rcases hf : findAssetFuzzy db.assets fn with _ | fa <;>
      rcases ht : findAssetFuzzy db.assets tn with _ | ta <;> simp_all
  · intro db now d nm hnm hf
    unfold dualIntentTx
    rcases ha : d.amount with _ | a
    · rfl
    · by_cases h0 : a = 0
      · simp [ha, h0]
      · by_cases hdup : is_duplicate_transaction db now d = true
        · simp [ha, h0, hdup]
        · simp [ha, h0, hdup, hnm, hf]

/-- Claim C6 amended witness: on a store holding only "Cash", a transfer
to the unknown "Opal" fails without mutation, and a recorded transaction
hinting at "Opal" leaves the asset table unchanged. -/
theorem C6_lazy_creation_amended_witness :
    handle_transfer_command
      { assets := [{ id := 1, name := "Cash", category := "Wallet",
                     type := AssetKind.LIQUID, balance := 100 }], nextAssetId := 2 } 0
      "Cash" "Opal" 10 =
    ({ assets := [{ id := 1, name := "Cash", category := "Wallet",
                    type := AssetKind.LIQUID, balance := 100 }], nextAssetId := 2 },
     TransferOutcome.asset_not_found) ∧
    (dualIntentTx
      { assets := [{ id := 1, name := "Cash", category := "Wallet",
                     type := AssetKind.LIQUID, balance := 100 }], nextAssetId := 2 } 0
      { amount := some 5, type := some TxType.EXPENSE,
        asset_name := some "Opal" }).1.assets =
    [{ id := 1, name := "Cash", category := "Wallet",
       type := AssetKind.LIQUID, balance := 100 }] :=
  ⟨C6_lazy_creation_amended.2.1 _ 0 "Cash" "Opal" 10 (Or.inr (by decide)),
   C6_lazy_creation_amended.2.2 _ 0
     { amount := some 5, type := some TxType.EXPENSE, asset_name := some "Opal" }
     "Opal" rfl (by decide)⟩

/-- Claim C7: the monthly aggregation sums INCOME and EXPENSE amounts,
takes net = income − expense, savings rate = net/income×100 only for
positive income (0 otherwise), daily average = expense divided by the
(at least 1) day of month, and expense-only category totals with a null
or empty category folded into "Uncategorized"; the spec's scenario
(INCOME 5000, EXPENSE 1000 "Food", day 10) yields 5000/1000/4000/80/100. -/
theorem C7_monthly_summary (txs : List Transaction) (day : Nat) (hday : 1 ≤ day) :
    (aggr_transactions txs day).total_income = sumAmounts (txs.filter isIncomeTx) ∧
    (aggr_transactions txs day).total_expense = sumAmounts (txs.filter isExpenseTx) ∧
    (aggr_transactions txs day).net_savings =
      (aggr_transactions txs day).total_income -
        (aggr_transactions txs day).total_expense ∧
    (0 < (aggr_transactions txs day).total_income →
      (aggr_transactions txs day).savings_rate =
        (aggr_transactions txs day).net_savings /
          (aggr_transactions txs day).total_income * 100) ∧
    (¬ 0 < (aggr_transactions txs day).total_income →
      (aggr_transactions txs day).savings_rate = 0) ∧
    (aggr_transactions txs day).daily_average =
      (aggr_transactions txs day).total_expense / ((max 1 day : Nat) : Rat) ∧
    (∀ c, lookupCat (aggr_transactions txs day).categories c =
      sumAmounts (txs.filter (fun t => isExpenseTx t && (catName t.category == c)))) ∧
    aggr_transactions
        [{ id := 1, date := 0, amount := 5000, category := some "Salary",
           type := some TxType.INCOME },
         { id := 2, date := 0, amount := 1000, category := some "Food",
           type := some TxType.EXPENSE }] 10 =
      { total_income := 5000, total_expense := 1000, net_savings := 4000,
        savings_rate := 80, daily_average := 100, categories := [("Food", 1000)] } := by
  have hpos : 0 < day := Nat.lt_of_lt_of_le Nat.zero_lt_one hday
  refine ⟨?_, ?_, ?_, ?_, ?_, ?_, ?_, ?_⟩
  · simp [aggr_transactions, aggr_fold_income]
  · simp [aggr_transactions, aggr_fold_expense]
  · simp [aggr_transactions]
  · intro h
    simp only [aggr_transactions] at h ⊢
    rw [if_pos h]
  · intro h
    simp only [aggr_transactions] at h ⊢
    rw [if_neg h]
  · simp only [aggr_transactions]
    rw [if_pos hpos, Nat.max_eq_right hday]
  · intro c
    simp only [aggr_transactions]
    rw [aggr_fold_cats]
    simp [lookupCat]
  · have hf : "Food".isEmpty = false := by decide
    norm_num [aggr_transactions, aggrStep, catName, addToCat, sumAmounts, hf]

/-- Claim C7 witness: with no transactions and day 10, the daily average
equals the total expense divided by the guarded day of month. -/
theorem C7_monthly_summary_witness :
    (aggr_transactions [] 10).daily_average =
      (aggr_transactions [] 10).total_expense / ((max 1 10 : Nat) : Rat) :=
  (C7_monthly_summary [] 10 (by decide)).2.2.2.2.2.1

/-- Claim C8: the weekly trend never divides by zero — a zero prior-week
total reports the trend as unavailable, and a nonzero prior-week total
reports the signed percent change (current − prior)/prior × 100 with the
up direction exactly when the difference is positive. -/
theorem C8_weekly_trend_guard (db : DB) (now : Int) :
    ((get_weekly_trend db now).last_week = 0 →
      (get_weekly_trend db now).trend = Trend.unavailable) ∧
    ((get_weekly_trend db now).last_week ≠ 0 →
      (get_weekly_trend db now).trend =
        Trend.change
          (((get_weekly_trend db now).this_week - (get_weekly_trend db now).last_week) /
             (get_weekly_trend db now).last_week * 100)
          (decide ((get_weekly_trend db now).this_week -
              (get_weekly_trend db now).last_week > 0))) := by
  dsimp only [get_weekly_trend]
  split
  · next h =>
    constructor
    · intro _; rfl
    · intro hne; exact absurd h hne
  · next h =>
    constructor
    · intro h0; exact absurd h0 h
    · intro _; rfl

/-- Claim C8 witness: one EXPENSE of 50 inside the current week and
nothing in the prior week reports the trend as unavailable. -/
theorem C8_weekly_trend_guard_witness :
    (get_weekly_trend
      { transactions := [{ id := 1, date := 1123200, amount := 50,
                           category := some "Food", type := some TxType.EXPENSE }] }
      1209600).trend = Trend.unavailable :=
  (C8_weekly_trend_guard
    { transactions := [{ id := 1, date := 1123200, amount := 50,
                         category := some "Food", type := some TxType.EXPENSE }] }
    1209600).1 (by decide)

/-- Claim C9: budget status computes percent = spent/limit×100 for a
positive limit and percent = 100 for a zero limit, raises the alert flag
exactly when percent reaches alert_threshold×100, and renders a 10-cell
progress bar whose filled count is the truncated spent/limit proportion
capped at 10; the spec's scenario (spent 100 of limit 200) renders the
bar at exactly 50%. -/
theorem C9_budget_status (txs : List Transaction) (b : Budget)
    (hs : 0 ≤ usageByCat txs b.category) :
    (budgetLine txs b).spent = usageByCat txs b.category ∧
    (0 < b.limit_amount →
      (budgetLine txs b).percent = usageByCat txs b.category / b.limit_amount * 100) ∧
    (b.limit_amount = 0 → (budgetLine txs b).percent = 100) ∧
    ((budgetLine txs b).alert = true ↔
      b.alert_threshold * 100 ≤ (budgetLine txs b).percent) ∧
    (0 < b.limit_amount →
      ∃ f : Nat, f ≤ 10 ∧
        (f : Int) = min ⌊usageByCat txs b.category / b.limit_amount * 10⌋ 10 ∧
        (budgetLine txs b).bar =
          "[" ++ String.mk (List.replicate f '█') ++
            String.mk (List.replicate (10 - f) '░') ++ "]") ∧
    (budgetLine
        [{ id := 1, date := 0, amount := 100, category := some "Food",
           type := some TxType.EXPENSE }]
        { id := 1, category := "Food", limit_amount := 200 }).percent = 50 ∧
    (budgetLine
        [{ id := 1, date := 0, amount := 100, category := some "Food",
           type := some TxType.EXPENSE }]
        { id := 1, category := "Food", limit_amount := 200 }).bar = "[█████░░░░░]" := by
  have hu : usageByCat
      [{ id := 1, date := 0, amount := 100, category := some "Food",
         type := some TxType.EXPENSE }] "Food" = 100 := by
    have hf : "Food".isEmpty = false := by decide
    norm_num [usageByCat, sumAmounts, hf]
  refine ⟨rfl, ?_, ?_, ?_, ?_, ?_, ?_⟩
  · intro hlim
    dsimp only [budgetLine]
    rw [if_pos hlim]
  · intro hlim
    dsimp only [budgetLine]
    rw [if_neg (by rw [hlim]; exact lt_irrefl 0)]
  · dsimp only [budgetLine]
    exact decide_eq_true_iff
  · intro hlim
    have hq : 0 ≤ usageByCat txs b.category / b.limit_amount * 10 := by positivity
    have hfl : 0 ≤ ⌊usageByCat txs b.category / b.limit_amount * 10⌋ :=
      Int.floor_nonneg.mpr hq
    refine ⟨(min ⌊usageByCat txs b.category / b.limit_amount * 10⌋ 10).toNat, ?_, ?_, ?_⟩
    · omega
    · omega
    · dsimp only [budgetLine, generate_progress_bar]
      simp only [Nat.cast_ofNat]
      rw [if_neg hlim.ne']
      have htr : ratTrunc (usageByCat txs b.category / b.limit_amount * (10 : Rat)) =
          ⌊usageByCat txs b.category / b.limit_amount * 10⌋ := by
        unfold ratTrunc
        rw [if_neg (not_lt.mpr hq)]
        rfl
      rw [htr]
      have h2 : ((10 : Int) -
          min ⌊usageByCat txs b.category / b.limit_amount * 10⌋ 10).toNat
          = 10 - (min ⌊usageByCat txs b.category / b.limit_amount * 10⌋ 10).toNat := by
        omega
      rw [h2]
  · dsimp only [budgetLine]
    rw [hu, if_pos (by norm_num : (0:Rat) < 200)]
    norm_num
  · dsimp only [budgetLine, generate_progress_bar]
    rw [hu, if_neg (by norm_num : ¬ (200:Rat) = 0)]
    have h5 : ratTrunc ((100:Rat) / 200 * ((10:Nat) : Rat)) = 5 := by
      unfold ratTrunc
      rw [Nat.cast_ofNat, if_neg (by norm_num)]
      show ⌊(100:Rat) / 200 * 10⌋ = 5
      norm_num
    rw [h5]
    rfl

/-- Claim C9 witness: a budget with limit 0 and no spending reports
percent 100 rather than dividing by zero. -/
theorem C9_budget_status_witness :
    (budgetLine [] { id := 1, category := "Food", limit_amount := 0 }).percent = 100 :=
  (C9_budget_status [] { id := 1, category := "Food", limit_amount := 0 }
    (by decide)).2.2.1 rfl

/-- Claim C10: the `/add` command records INCOME exactly when the signed
argument is positive and EXPENSE otherwise, stores the absolute value as
the amount, appends exactly one row, and adjusts a resolved linked asset
by +|a| for INCOME and −|a| for EXPENSE with no CREDIT-specific
polarity (the formula does not consult the asset's kind). -/
theorem C10_add_command_sign_rule (db : DB) (now : Int) (amount : Rat)
    (category desc : String) (asset_name : Option String) :
    ((handle_add_command db now amount category desc asset_name).2.tx_type
        = if 0 < amount then TxType.INCOME else TxType.EXPENSE) ∧
    ((handle_add_command db now amount category desc asset_name).2.stored_amount
        = |amount|) ∧
    ((handle_add_command db now amount category desc asset_name).1.transactions.length
        = db.transactions.length + 1) ∧
    (∀ nm asset, asset_name = some nm → findAssetFuzzy db.assets nm = some asset →
      assetBalance (handle_add_command db now amount category desc asset_name).1 asset.id =
        some (if 0 < amount then asset.balance + |amount|
              else asset.balance - |amount|)) := by
  refine ⟨?_, ?_, ?_, ?_⟩
  · rcases hn : asset_name with _ | nm
    · simp [handle_add_command, hn]
    · rcases hf : findAssetFuzzy db.assets nm with _ | asset <;>
        simp [handle_add_command, hn, hf]
  · rcases hn : asset_name with _ | nm
    · simp [handle_add_command, hn]
    · rcases hf : findAssetFuzzy db.assets nm with _ | asset <;>
        simp [handle_add_command, hn, hf]
  · rcases hn : asset_name with _ | nm
    · simp [handle_add_command, hn]
    · rcases hf : findAssetFuzzy db.assets nm with _ | asset <;>
        simp [handle_add_command, hn, hf]
  · intro nm asset hn hf
    have hmem := List.mem_of_find?_eq_some hf
    by_cases hpos : 0 < amount
    · have hget : getAsset (setAsset db.assets
          { asset with balance := asset.balance + |amount|, updated_at := now }) asset.id =
          some { asset with balance := asset.balance + |amount|, updated_at := now } :=
        getAsset_setAsset db.assets _ ⟨asset, hmem, by simp⟩
      simp [handle_add_command, hn, hf, hpos, assetBalance, hget]
    · have hget : getAsset (setAsset db.assets
          { asset with balance := asset.balance - |amount|, updated_at := now }) asset.id =
          some { asset with balance := asset.balance - |amount|, updated_at := now } :=
        getAsset_setAsset db.assets _ ⟨asset, hmem, by simp⟩
      simp [handle_add_command, hn, hf, hpos, assetBalance, hget]

/-- Claim C10 witness: `/add -30 Food dinner Cash` records an EXPENSE and
decreases the linked LIQUID asset "Cash" (balance 100) by the absolute
amount 30. -/
theorem C10_add_command_sign_rule_witness :
    assetBalance (handle_add_command
      { assets := [{ id := 1, name := "Cash", category := "Wallet",
                     type := AssetKind.LIQUID, balance := 100 }], nextAssetId := 2 }
      0 (-30) "Food" "dinner" (some "Cash")).1 1 =
    some ((100 : Rat) - |(-30 : Rat)|) := by
  have h := (C10_add_command_sign_rule
      { assets := [{ id := 1, name := "Cash", category := "Wallet",
                     type := AssetKind.LIQUID, balance := 100 }], nextAssetId := 2 }
      0 (-30) "Food" "dinner" (some "Cash")).2.2.2 "Cash"
    { id := 1, name := "Cash", category := "Wallet", type := AssetKind.LIQUID,
      balance := 100, currency := "CNY", updated_at := 0 } rfl (by decide)
  rw [h, if_neg (by decide : ¬ (0:Rat) < -30)]

end WealthWarden
